import Mathlib

/-!
Verification of the crop-box computation core of pdfCropMargins
(`crop_utils.py`, `page_configuration.py`, `constants.py`).

Boxes are 4-tuples `(left, bottom, right, top)` of real coordinates,
modelled over `ℚ`.  Python's `sorted` is modelled by `List.insertionSort`
(any two sorted permutations of the same value list agree, so the choice of
sorting algorithm is immaterial), and `sorted(..., reverse=True)` by
sorting with `(· ≥ ·)`.  Stateful code (mutation of `args` and of a
`PageConfiguration`) is modelled by explicit state passing: each operation
returns the updated object together with its other results.
-/

/-- A page box `(left, bottom, right, top)`, the 4-tuple shape used
throughout `crop_utils.py`. -/
structure Box where
  left : ℚ
  bottom : ℚ
  right : ℚ
  top : ℚ
deriving DecidableEq, Repr

instance : Inhabited Box := ⟨⟨0, 0, 0, 0⟩⟩

/-- The 4-character edge mask (`'t'`/`'f'` per edge, in
`(left, bottom, right, top)` order) taken by `combine_tuple_lists_with_mask`. -/
structure Mask where
  m0 : Char
  m1 : Char
  m2 : Char
  m3 : Char
deriving DecidableEq, Repr

/-- Constant `DEFAULT_DPI = 72` from `constants.py`. -/
def DEFAULT_DPI : ℚ := 72

/-- Constant `DEFAULT_PERCENT_RETAIN = 10.0` from `constants.py`. -/
def DEFAULT_PERCENT_RETAIN : ℚ := 10

/-- The per-edge values of the selected pages: `full_page_box_list[pg][i]`
for `pg in page_nums_to_crop`, with `edge` the field projection. -/
def edge_values (full_page_box_list : List Box) (page_nums_to_crop : List ℕ)
    (edge : Box → ℚ) : List ℚ :=
  page_nums_to_crop.map fun pg => edge (full_page_box_list.getD pg default)

/-- Embedding of `crop_utils.calculate_same_size_bounding_box`: sort the selected pages'
left and bottom edge values ascending and their right and top edge values
descending, and take index `order_n` of each sorted list. -/
def calculate_same_size_bounding_box (full_page_box_list : List Box)
    (page_nums_to_crop : List ℕ) (order_n : ℕ) : Box :=
  let lefts := List.insertionSort (· ≤ ·)
    (edge_values full_page_box_list page_nums_to_crop Box.left)
  let bottoms := List.insertionSort (· ≤ ·)
    (edge_values full_page_box_list page_nums_to_crop Box.bottom)
  let rights := List.insertionSort (· ≥ ·)
    (edge_values full_page_box_list page_nums_to_crop Box.right)
  let tops := List.insertionSort (· ≥ ·)
    (edge_values full_page_box_list page_nums_to_crop Box.top)
  ⟨lefts.getD order_n 0, bottoms.getD order_n 0,
   rights.getD order_n 0, tops.getD order_n 0⟩

/-- One step of the inner loop of `combine_tuple_lists_with_mask`: edge `i`
of the result is `optional_tuple[i]` when `mask[i] == 't'`, else
`default_tuple[i]`. -/
def mask_edge (c : Char) (d o : ℚ) : ℚ :=
  if c = 't' then o else d

/-- The per-page-pair body of the loop in `combine_tuple_lists_with_mask`. -/
def mask_box (mask : Mask) (default_tuple optional_tuple : Box) : Box :=
  ⟨mask_edge mask.m0 default_tuple.left optional_tuple.left,
   mask_edge mask.m1 default_tuple.bottom optional_tuple.bottom,
   mask_edge mask.m2 default_tuple.right optional_tuple.right,
   mask_edge mask.m3 default_tuple.top optional_tuple.top⟩

/-- Embedding of `crop_utils.combine_tuple_lists_with_mask`: zip the two lists
(truncating to the shorter, as Python's `zip` does) and combine each pair
edge-by-edge according to the mask. -/
def combine_tuple_lists_with_mask (mask : Mask)
    (default_list optional_list : List Box) : List Box :=
  (default_list.zip optional_list).map fun p => mask_box mask p.1 p.2

/-- The already-parsed command-line arguments consumed by
`handle_same_page_size_option`.  `samePageSizeOrderStat = []` models the
Python falsy values (`None` or an empty list); `none` models absent/falsy
`setSamePageSize` and `samePageSize4`. -/
structure Args where
  verbose : Bool
  samePageSize : Bool
  setSamePageSize : Option Box
  samePageSize4 : Option Mask
  samePageSizeOrderStat : List ℤ
deriving DecidableEq, Repr

/-- First statements of `handle_same_page_size_option` ("Handle order
statistic option"): the clamped order statistic
`max(min(args.samePageSizeOrderStat[0], num_pages_to_crop - 1), 0)`,
or `0` when no order statistic was supplied. -/
def compute_order_n (args : Args) (num_pages_to_crop : ℕ) : ℤ :=
  if args.samePageSizeOrderStat ≠ [] then
    max (min (args.samePageSizeOrderStat.headD 0) ((num_pages_to_crop : ℤ) - 1)) 0
  else 0

/-- In-place mutation `args.samePageSize = True` performed by
`handle_same_page_size_option` when an order statistic was supplied,
modelled as a state update. -/
def update_args (args : Args) : Args :=
  if args.samePageSizeOrderStat ≠ [] then { args with samePageSize := true }
  else args

/-- Final loop of `handle_same_page_size_option`: pages outside
`page_nums_to_crop` keep their own box, selected pages take the entry of
`same_size_bounding_box_list` at their page number. -/
def merge_selected (full_page_box_list : List Box) (page_nums_to_crop : List ℕ)
    (same_size_bounding_box_list : List Box) : List Box :=
  full_page_box_list.enum.map fun p =>
    if p.1 ∉ page_nums_to_crop then p.2
    else same_size_bounding_box_list.getD p.1 default

/-- Embedding of `crop_utils.handle_same_page_size_option`.  The Python
function mutates `args.samePageSize` in place; here the updated `args` is
returned alongside the new box list. -/
def handle_same_page_size_option (args : Args) (full_page_box_list : List Box)
    (page_nums_to_crop : List ℕ) (num_pages_to_crop : ℕ) : Args × List Box :=
  -- Handle order statistic option
  let order_n : ℤ := compute_order_n args num_pages_to_crop
  let args := update_args args
  if !(args.samePageSize || args.setSamePageSize.isSome) then
    (args, full_page_box_list)
  else
    let same_size_bounding_box : Box :=
      if args.samePageSize then
        calculate_same_size_bounding_box full_page_box_list page_nums_to_crop
          order_n.toNat
      else
        args.setSamePageSize.getD default
    let num_pages := full_page_box_list.length
    let same_size_bounding_box_list := List.replicate num_pages same_size_bounding_box
    let same_size_bounding_box_list :=
      match args.samePageSize4 with
      | some mask =>
          combine_tuple_lists_with_mask mask full_page_box_list
            same_size_bounding_box_list
      | none => same_size_bounding_box_list
    (args, merge_selected full_page_box_list page_nums_to_crop
      same_size_bounding_box_list)

/-- Embedding of `page_configuration.PageConfiguration`: the per-document settings
object.  Field names follow the Python attributes. -/
structure PageConfiguration where
  verbose : Bool
  password : Option String
  res_x : ℚ
  res_y : ℚ
  full_page_box : List String
  absolute_precrop_4 : List ℚ
  percent_retain : ℚ
  percent_retain_4 : List ℚ
  write_crop_data_to_file : Option String
  boxes_to_set : List String
  page_ratio_weights : List ℚ
deriving DecidableEq, Repr

/-- Embedding of `PageConfiguration._set_default_values`. -/
def PageConfiguration.set_default_values : PageConfiguration :=
  { verbose := false
    password := none
    res_x := DEFAULT_DPI
    res_y := DEFAULT_DPI
    full_page_box := ["m", "c"]
    absolute_precrop_4 := [0, 0, 0, 0]
    percent_retain := DEFAULT_PERCENT_RETAIN
    percent_retain_4 := List.replicate 4 DEFAULT_PERCENT_RETAIN
    write_crop_data_to_file := none
    boxes_to_set := ["m"]
    page_ratio_weights := [1, 1, 1, 1] }

/-- Embedding of `PageConfiguration.validate_settings`: repair non-positive resolutions
to `DEFAULT_DPI` and wrong-length 4-lists to their defaults, collecting one
warning string per repair (the Python f-strings rendered with
`DEFAULT_DPI = 72`).  The repaired configuration and the warning list are
returned. -/
def PageConfiguration.validate_settings (c : PageConfiguration) :
    PageConfiguration × List String :=
  let warnings : List String := []
  -- Ensure resolution values are positive
  let warnings :=
    if c.res_x ≤ 0 then warnings ++ ["Invalid X resolution, reset to 72"]
    else warnings
  let c := if c.res_x ≤ 0 then { c with res_x := DEFAULT_DPI } else c
  let warnings :=
    if c.res_y ≤ 0 then warnings ++ ["Invalid Y resolution, reset to 72"]
    else warnings
  let c := if c.res_y ≤ 0 then { c with res_y := DEFAULT_DPI } else c
  -- Validate percent retain values
  let warnings :=
    if c.percent_retain_4.length ≠ 4 then
      warnings ++ ["Fixed percent_retain_4 to have 4 values"]
    else warnings
  let c :=
    if c.percent_retain_4.length ≠ 4 then
      { c with percent_retain_4 := List.replicate 4 c.percent_retain }
    else c
  -- Validate absolute precrop values
  let warnings :=
    if c.absolute_precrop_4.length ≠ 4 then
      warnings ++ ["Fixed absolute_precrop_4 to have 4 values"]
    else warnings
  let c :=
    if c.absolute_precrop_4.length ≠ 4 then
      { c with absolute_precrop_4 := [0, 0, 0, 0] }
    else c
  (c, warnings)

/-- The three-page example box list used in the spec's concrete scenarios. -/
def demoBoxes : List Box :=
  [⟨0, 0, 100, 100⟩, ⟨10, 10, 110, 110⟩, ⟨5, 5, 105, 105⟩]

/-! ### Helper lemmas about the masked combiner -/

lemma mask_box_ffff (d o : Box) : mask_box ⟨'f', 'f', 'f', 'f'⟩ d o = d := rfl

lemma mask_box_tttt (d o : Box) : mask_box ⟨'t', 't', 't', 't'⟩ d o = o := rfl

lemma combine_length (mask : Mask) (default_list optional_list : List Box) :
    (combine_tuple_lists_with_mask mask default_list optional_list).length =
      min default_list.length optional_list.length := by
  simp [combine_tuple_lists_with_mask]

/-! ### Claims about `combine_tuple_lists_with_mask` -/

/-- C1 (counterexample): on mask `"tfft"`, default `[(1,2,3,4)]` and override
`[(10,20,30,40)]`, the code does NOT return `[(10,2,30,40)]`: edge 2's mask
character is `'f'`, so edge 2 keeps the default value `3`. -/
theorem combine_mask_tfft_counterexample :
    combine_tuple_lists_with_mask ⟨'t', 'f', 'f', 't'⟩
        [⟨1, 2, 3, 4⟩] [⟨10, 20, 30, 40⟩] ≠ [⟨10, 2, 30, 40⟩] := by
  decide

/-- C1 (amended): on mask `"tfft"`, default `[(1,2,3,4)]` and override
`[(10,20,30,40)]`, `combine_tuple_lists_with_mask` returns `[(10,2,3,40)]`
(edge `i` is taken from the override tuple exactly when mask character `i`
is `'t'`). -/
theorem combine_mask_tfft_value :
    combine_tuple_lists_with_mask ⟨'t', 'f', 'f', 't'⟩
        [⟨1, 2, 3, 4⟩] [⟨10, 20, 30, 40⟩] = [⟨10, 2, 3, 40⟩] := by
  decide

/-- C6: for equal-length inputs, the all-`'f'` mask returns the default list
and the all-`'t'` mask returns the override list. -/
theorem combine_mask_ffff_tttt (default_list optional_list : List Box)
    (h : default_list.length = optional_list.length) :
    combine_tuple_lists_with_mask ⟨'f', 'f', 'f', 'f'⟩ default_list optional_list
        = default_list ∧
    combine_tuple_lists_with_mask ⟨'t', 't', 't', 't'⟩ default_list optional_list
        = optional_list := by
  induction default_list generalizing optional_list with
  | nil =>
    cases optional_list with
    | nil => exact ⟨rfl, rfl⟩
    | cons o os => simp at h
  | cons d ds ih =>
    cases optional_list with
    | nil => simp at h
    | cons o os =>
      have h' : ds.length = os.length := by simpa using h
      obtain ⟨ih1, ih2⟩ := ih os h'
      constructor
      · simpa [combine_tuple_lists_with_mask, mask_box_ffff] using ih1
      · simpa [combine_tuple_lists_with_mask, mask_box_tttt] using ih2

/-- C6 witness: concrete equal-length instantiation. -/
theorem combine_mask_ffff_tttt_witness :
    ([⟨1, 2, 3, 4⟩] : List Box).length = ([⟨10, 20, 30, 40⟩] : List Box).length ∧
    combine_tuple_lists_with_mask ⟨'f', 'f', 'f', 'f'⟩
        [⟨1, 2, 3, 4⟩] [⟨10, 20, 30, 40⟩] = [⟨1, 2, 3, 4⟩] :=
  ⟨rfl, (combine_mask_ffff_tttt [⟨1, 2, 3, 4⟩] [⟨10, 20, 30, 40⟩] rfl).1⟩

/-- C10: for every mask and every pair of input lists, the result has length
`min` of the two input lengths (extra entries of the longer list are dropped;
no error is raised — the function is total), and entry `i` of the result is
the masked combination of entries `i` of the two inputs. -/
theorem combine_mask_truncation (mask : Mask)
    (default_list optional_list : List Box) :
    (combine_tuple_lists_with_mask mask default_list optional_list).length =
      min default_list.length optional_list.length ∧
    ∀ i, i < min default_list.length optional_list.length →
      (combine_tuple_lists_with_mask mask default_list optional_list).getD i default
        = mask_box mask (default_list.getD i default)
            (optional_list.getD i default) := by
  refine ⟨combine_length mask default_list optional_list, ?_⟩
  intro i hi
  have hlen : i < (combine_tuple_lists_with_mask mask default_list optional_list).length := by
    rw [combine_length]; exact hi
  have hzip : i < (default_list.zip optional_list).length := by
    simpa [List.length_zip] using hi
  have hd : i < default_list.length := lt_of_lt_of_le hi (min_le_left _ _)
  have ho : i < optional_list.length := lt_of_lt_of_le hi (min_le_right _ _)
  rw [List.getD_eq_getElem _ _ hlen, List.getD_eq_getElem _ _ hd,
    List.getD_eq_getElem _ _ ho]
  simp [combine_tuple_lists_with_mask, List.getElem_zip]

/-- C10 witness: concrete unequal-length instantiation (entry check at `i = 0`). -/
theorem combine_mask_truncation_witness :
    (0 : ℕ) < min ([⟨1, 2, 3, 4⟩] : List Box).length
        ([⟨5, 6, 7, 8⟩, ⟨9, 10, 11, 12⟩] : List Box).length ∧
    (combine_tuple_lists_with_mask ⟨'t', 'f', 'f', 't'⟩
        [⟨1, 2, 3, 4⟩] [⟨5, 6, 7, 8⟩, ⟨9, 10, 11, 12⟩]).getD 0 default
      = mask_box ⟨'t', 'f', 'f', 't'⟩ (([⟨1, 2, 3, 4⟩] : List Box).getD 0 default)
          (([⟨5, 6, 7, 8⟩, ⟨9, 10, 11, 12⟩] : List Box).getD 0 default) :=
  ⟨by decide,
    (combine_mask_truncation ⟨'t', 'f', 'f', 't'⟩
        [⟨1, 2, 3, 4⟩] [⟨5, 6, 7, 8⟩, ⟨9, 10, 11, 12⟩]).2 0 (by decide)⟩

/-- C4 (counterexample): on unequal-length inputs (lengths 1 and 2) the code
does not fail: it silently returns the truncated result `[(1,2,3,4)]`. -/
theorem combine_mask_no_fail_counterexample :
    combine_tuple_lists_with_mask ⟨'f', 'f', 'f', 'f'⟩
        [⟨1, 2, 3, 4⟩] [⟨5, 6, 7, 8⟩, ⟨9, 10, 11, 12⟩] = [⟨1, 2, 3, 4⟩] ∧
    (combine_tuple_lists_with_mask ⟨'f', 'f', 'f', 'f'⟩
        [⟨1, 2, 3, 4⟩] [⟨5, 6, 7, 8⟩, ⟨9, 10, 11, 12⟩]).length ≠
      ([⟨5, 6, 7, 8⟩, ⟨9, 10, 11, 12⟩] : List Box).length := by
  decide

/-- C4 (amended): on input lists of different lengths,
`combine_tuple_lists_with_mask` raises no error and returns a truncated
result: its length is the minimum of the two input lengths, strictly less
than the longer input's length. -/
theorem combine_mask_unequal_truncates (mask : Mask)
    (default_list optional_list : List Box)
    (h : default_list.length ≠ optional_list.length) :
    (combine_tuple_lists_with_mask mask default_list optional_list).length =
      min default_list.length optional_list.length ∧
    (combine_tuple_lists_with_mask mask default_list optional_list).length <
      max default_list.length optional_list.length := by
  refine ⟨combine_length mask default_list optional_list, ?_⟩
  rw [combine_length]
  omega

/-- C4 amended witness: concrete unequal-length instantiation. -/
theorem combine_mask_unequal_truncates_witness :
    ([⟨1, 2, 3, 4⟩] : List Box).length ≠
        ([⟨5, 6, 7, 8⟩, ⟨9, 10, 11, 12⟩] : List Box).length ∧
    (combine_tuple_lists_with_mask ⟨'f', 'f', 'f', 'f'⟩
        [⟨1, 2, 3, 4⟩] [⟨5, 6, 7, 8⟩, ⟨9, 10, 11, 12⟩]).length <
      max ([⟨1, 2, 3, 4⟩] : List Box).length
        ([⟨5, 6, 7, 8⟩, ⟨9, 10, 11, 12⟩] : List Box).length :=
  ⟨by decide,
    (combine_mask_unequal_truncates ⟨'f', 'f', 'f', 'f'⟩
        [⟨1, 2, 3, 4⟩] [⟨5, 6, 7, 8⟩, ⟨9, 10, 11, 12⟩] (by decide)).2⟩

/-! ### Claims about `PageConfiguration.validate_settings` -/

/-- Closed form of `validate_settings`: each field is repaired independently
and the warnings accumulate in check order. -/
lemma validate_settings_eq (c : PageConfiguration) :
    c.validate_settings =
      ({ c with
          res_x := if c.res_x ≤ 0 then DEFAULT_DPI else c.res_x
          res_y := if c.res_y ≤ 0 then DEFAULT_DPI else c.res_y
          percent_retain_4 :=
            if c.percent_retain_4.length ≠ 4 then List.replicate 4 c.percent_retain
            else c.percent_retain_4
          absolute_precrop_4 :=
            if c.absolute_precrop_4.length ≠ 4 then [0, 0, 0, 0]
            else c.absolute_precrop_4 },
        (if c.res_x ≤ 0 then ["Invalid X resolution, reset to 72"] else []) ++
          (if c.res_y ≤ 0 then ["Invalid Y resolution, reset to 72"] else []) ++
          (if c.percent_retain_4.length ≠ 4 then
            ["Fixed percent_retain_4 to have 4 values"] else []) ++
          (if c.absolute_precrop_4.length ≠ 4 then
            ["Fixed absolute_precrop_4 to have 4 values"] else [])) := by
  by_cases hx : c.res_x ≤ 0 <;> by_cases hy : c.res_y ≤ 0 <;>
    by_cases h3 : c.percent_retain_4.length = 4 <;>
    by_cases h4 : c.absolute_precrop_4.length = 4 <;>
    simp [PageConfiguration.validate_settings, hx, hy, h3, h4]

lemma validate_settings_of_valid (c : PageConfiguration)
    (h1 : 0 < c.res_x) (h2 : 0 < c.res_y)
    (h3 : c.percent_retain_4.length = 4)
    (h4 : c.absolute_precrop_4.length = 4) :
    c.validate_settings = (c, []) := by
  rw [validate_settings_eq]
  simp [not_le.mpr h1, not_le.mpr h2, h3, h4]

lemma validate_settings_res_x_pos (c : PageConfiguration) :
    0 < (c.validate_settings).1.res_x := by
  rw [validate_settings_eq]
  by_cases hx : c.res_x ≤ 0 <;> simp [hx, DEFAULT_DPI]
  exact not_le.mp hx

lemma validate_settings_res_y_pos (c : PageConfiguration) :
    0 < (c.validate_settings).1.res_y := by
  rw [validate_settings_eq]
  by_cases hy : c.res_y ≤ 0 <;> simp [hy, DEFAULT_DPI]
  exact not_le.mp hy

lemma validate_settings_pr4_len (c : PageConfiguration) :
    (c.validate_settings).1.percent_retain_4.length = 4 := by
  rw [validate_settings_eq]
  by_cases h3 : c.percent_retain_4.length = 4 <;> simp [h3]

lemma validate_settings_ap4_len (c : PageConfiguration) :
    (c.validate_settings).1.absolute_precrop_4.length = 4 := by
  rw [validate_settings_eq]
  by_cases h4 : c.absolute_precrop_4.length = 4 <;> simp [h4]

/-- C5: on a configuration whose X resolution is non-positive while every
other field is valid, `validate_settings` resets `res_x` to 72 and returns
exactly one warning, the X-resolution one; and in general each non-positive
resolution is repaired to `DEFAULT_DPI` with its warning recorded (the
function is total — it never raises). -/
theorem validate_settings_repairs_resolution :
    (∀ c : PageConfiguration, c.res_x ≤ 0 → 0 < c.res_y →
      c.percent_retain_4.length = 4 → c.absolute_precrop_4.length = 4 →
      (c.validate_settings).1.res_x = 72 ∧
      (c.validate_settings).2 = ["Invalid X resolution, reset to 72"]) ∧
    (∀ c : PageConfiguration,
      (c.res_x ≤ 0 → (c.validate_settings).1.res_x = DEFAULT_DPI ∧
        "Invalid X resolution, reset to 72" ∈ (c.validate_settings).2) ∧
      (c.res_y ≤ 0 → (c.validate_settings).1.res_y = DEFAULT_DPI ∧
        "Invalid Y resolution, reset to 72" ∈ (c.validate_settings).2)) := by
  constructor
  · intro c hx hy h3 h4
    rw [validate_settings_eq]
    simp [hx, not_le.mpr hy, h3, h4, DEFAULT_DPI]
  · intro c
    constructor
    · intro hx
      rw [validate_settings_eq]
      simp [hx]
    · intro hy
      rw [validate_settings_eq]
      simp [hy]

/-- C5 witness: the concrete scenario `res_x = -5` with all other fields
valid. -/
theorem validate_settings_repairs_resolution_witness :
    ((-5 : ℚ) ≤ 0 ∧ (0 : ℚ) < 72) ∧
    ((⟨false, none, -5, 72, ["m", "c"], [0, 0, 0, 0], 10, [10, 10, 10, 10],
        none, ["m"], [1, 1, 1, 1]⟩ : PageConfiguration).validate_settings).1.res_x = 72 ∧
    ((⟨false, none, -5, 72, ["m", "c"], [0, 0, 0, 0], 10, [10, 10, 10, 10],
        none, ["m"], [1, 1, 1, 1]⟩ : PageConfiguration).validate_settings).2 =
      ["Invalid X resolution, reset to 72"] :=
  ⟨⟨by norm_num, by norm_num⟩,
    validate_settings_repairs_resolution.1
      ⟨false, none, -5, 72, ["m", "c"], [0, 0, 0, 0], 10, [10, 10, 10, 10],
        none, ["m"], [1, 1, 1, 1]⟩
      (by norm_num) (by norm_num) (by decide) (by decide)⟩

/-- C9: `validate_settings` is an idempotent repair: running it on the output
of a first run changes nothing and returns no warnings. -/
theorem validate_settings_idempotent (c : PageConfiguration) :
    ((c.validate_settings).1).validate_settings = ((c.validate_settings).1, []) :=
  validate_settings_of_valid _ (validate_settings_res_x_pos c)
    (validate_settings_res_y_pos c) (validate_settings_pr4_len c)
    (validate_settings_ap4_len c)

/-! ### Claims about `handle_same_page_size_option` -/

lemma handle_same_page_size_fst (args : Args) (full_page_box_list : List Box)
    (page_nums_to_crop : List ℕ) (num_pages_to_crop : ℕ) :
    (handle_same_page_size_option args full_page_box_list page_nums_to_crop
        num_pages_to_crop).1 = update_args args := by
  simp only [handle_same_page_size_option]
  split
  · rfl
  · rfl

lemma handle_same_page_size_snd (args : Args) (full_page_box_list : List Box)
    (page_nums_to_crop : List ℕ) (num_pages_to_crop : ℕ) :
    (handle_same_page_size_option args full_page_box_list page_nums_to_crop
        num_pages_to_crop).2 = full_page_box_list ∨
    ∃ bb_list, (handle_same_page_size_option args full_page_box_list
        page_nums_to_crop num_pages_to_crop).2
      = merge_selected full_page_box_list page_nums_to_crop bb_list := by
  simp only [handle_same_page_size_option]
  split
  · exact Or.inl rfl
  · exact Or.inr ⟨_, rfl⟩

lemma merge_selected_length (full_page_box_list : List Box)
    (page_nums_to_crop : List ℕ) (bb_list : List Box) :
    (merge_selected full_page_box_list page_nums_to_crop bb_list).length =
      full_page_box_list.length := by
  simp [merge_selected, List.enum_length]

lemma merge_selected_getD_not_mem (full_page_box_list : List Box)
    (page_nums_to_crop : List ℕ) (bb_list : List Box) (i : ℕ)
    (hi : i < full_page_box_list.length) (h : i ∉ page_nums_to_crop) :
    (merge_selected full_page_box_list page_nums_to_crop bb_list).getD i default
      = full_page_box_list.getD i default := by
  have hlen : i < (merge_selected full_page_box_list page_nums_to_crop bb_list).length := by
    rw [merge_selected_length]; exact hi
  rw [List.getD_eq_getElem _ _ hlen, List.getD_eq_getElem _ _ hi]
  simp only [merge_selected, List.getElem_map, List.getElem_enum]
  simp [h]

/-- C7 (counterexample): `handle_same_page_size_option` mutates the `args`
object it is given: with `samePageSizeOrderStat = [0]` and
`samePageSize = False` on entry, `args.samePageSize` is `True` after the
call. -/
theorem handle_same_page_size_mutates_args :
    ((handle_same_page_size_option ⟨false, false, none, none, [0]⟩
        [⟨0, 0, 1, 1⟩] [0] 1).1).samePageSize = true ∧
    (⟨false, false, none, none, [0]⟩ : Args).samePageSize = false :=
  ⟨by rw [handle_same_page_size_fst]; rfl, rfl⟩

/-- C7 (amended): every field of `args` other than `samePageSize` is
unchanged by `handle_same_page_size_option`, and `samePageSize` is forced to
`true` exactly when a `samePageSizeOrderStat` value is supplied (otherwise
it too is unchanged); the box-list inputs are never mutated (the embedding
is pure). -/
theorem handle_same_page_size_args_effect (args : Args) (full_page_box_list : List Box)
    (page_nums_to_crop : List ℕ) (num_pages_to_crop : ℕ) :
    (handle_same_page_size_option args full_page_box_list page_nums_to_crop
        num_pages_to_crop).1 =
      { args with
          samePageSize :=
            if args.samePageSizeOrderStat ≠ [] then true else args.samePageSize } := by
  rw [handle_same_page_size_fst]
  unfold update_args
  split
  · rfl
  · rfl

/-- C8: `handle_same_page_size_option` returns a box list of the same length
(and page order) as the input, and every page outside the selection keeps
exactly its input box. -/
theorem handle_same_page_size_frame (args : Args) (full_page_box_list : List Box)
    (page_nums_to_crop : List ℕ) (num_pages_to_crop : ℕ) :
    ((handle_same_page_size_option args full_page_box_list page_nums_to_crop
        num_pages_to_crop).2).length = full_page_box_list.length ∧
    ∀ i, i < full_page_box_list.length → i ∉ page_nums_to_crop →
      ((handle_same_page_size_option args full_page_box_list page_nums_to_crop
          num_pages_to_crop).2).getD i default
        = full_page_box_list.getD i default := by
  rcases handle_same_page_size_snd args full_page_box_list page_nums_to_crop
      num_pages_to_crop with h | ⟨bb_list, h⟩
  · rw [h]
    exact ⟨rfl, fun i hi hsel => rfl⟩
  · rw [h]
    exact ⟨merge_selected_length _ _ _,
      fun i hi hsel => merge_selected_getD_not_mem _ _ _ i hi hsel⟩

/-- C8 witness: a two-page document, page 1 not selected, keeps its box. -/
theorem handle_same_page_size_frame_witness :
    1 < ([⟨0, 0, 1, 1⟩, ⟨2, 2, 3, 3⟩] : List Box).length ∧
    (1 : ℕ) ∉ ([0] : List ℕ) ∧
    ((handle_same_page_size_option ⟨false, true, none, none, []⟩
        [⟨0, 0, 1, 1⟩, ⟨2, 2, 3, 3⟩] [0] 1).2).getD 1 default
      = ([⟨0, 0, 1, 1⟩, ⟨2, 2, 3, 3⟩] : List Box).getD 1 default :=
  ⟨by decide, by decide,
    (handle_same_page_size_frame ⟨false, true, none, none, []⟩
        [⟨0, 0, 1, 1⟩, ⟨2, 2, 3, 3⟩] [0] 1).2 1 (by decide) (by decide)⟩

/-! ### Order-statistic lemmas for the bounding-box computation -/

/-- Head of a sorted permutation: index 0 of `insertionSort r l` is a member
of `l` and is `r`-related to every member of `l`. -/
lemma insertionSort_getD_zero_rel (r : ℚ → ℚ → Prop) [DecidableRel r]
    [IsTotal ℚ r] [IsTrans ℚ r] (l : List ℚ) (hl : l ≠ []) :
    (List.insertionSort r l).getD 0 0 ∈ l ∧
    ∀ x ∈ l, r ((List.insertionSort r l).getD 0 0) x := by
  have hperm := List.perm_insertionSort r l
  have hsorted := List.sorted_insertionSort r l
  cases hs : List.insertionSort r l with
  | nil =>
    rw [hs] at hperm
    exact absurd hperm.symm.eq_nil hl
  | cons a rest =>
    rw [hs] at hperm hsorted
    have ha : a ∈ l := hperm.mem_iff.mp (List.mem_cons_self a rest)
    refine ⟨by simpa using ha, ?_⟩
    intro x hx
    have hx' : x ∈ a :: rest := hperm.mem_iff.mpr hx
    rcases List.mem_cons.mp hx' with hxa | hxr
    · subst hxa; simpa using refl_of r x
    · simpa using List.rel_of_sorted_cons hsorted x hxr

/-- Adjacent entries of a sorted list are related. -/
lemma insertionSort_getD_adjacent_rel (r : ℚ → ℚ → Prop) [DecidableRel r]
    [IsTotal ℚ r] [IsTrans ℚ r] (l : List ℚ) (n : ℕ) (h : n + 1 < l.length) :
    r ((List.insertionSort r l).getD n 0) ((List.insertionSort r l).getD (n + 1) 0) := by
  have hlen : (List.insertionSort r l).length = l.length :=
    List.length_insertionSort r l
  have h1 : n + 1 < (List.insertionSort r l).length := by rw [hlen]; exact h
  have h0 : n < (List.insertionSort r l).length := Nat.lt_of_succ_lt h1
  have hsorted := List.sorted_insertionSort r l
  rw [List.getD_eq_getElem _ _ h0, List.getD_eq_getElem _ _ h1]
  have := List.pairwise_iff_get.mp hsorted ⟨n, h0⟩ ⟨n + 1, h1⟩ (by simp)
  simpa using this

/-- C2: with `order_n = 0` the bounding box takes the minimum of the selected
pages' left and bottom values and the maximum of their right and top values;
on the spec's three-page example it returns `[0,0,110,110]` for `order_n = 0`
and `[5,5,105,105]` for `order_n = 1`. -/
theorem same_size_bounding_box_spec :
    (∀ (boxes : List Box) (sel : List ℕ), sel ≠ [] →
      (∀ pg ∈ sel, pg < boxes.length) →
      ((calculate_same_size_bounding_box boxes sel 0).left
          ∈ edge_values boxes sel Box.left ∧
        ∀ x ∈ edge_values boxes sel Box.left,
          (calculate_same_size_bounding_box boxes sel 0).left ≤ x) ∧
      ((calculate_same_size_bounding_box boxes sel 0).bottom
          ∈ edge_values boxes sel Box.bottom ∧
        ∀ x ∈ edge_values boxes sel Box.bottom,
          (calculate_same_size_bounding_box boxes sel 0).bottom ≤ x) ∧
      ((calculate_same_size_bounding_box boxes sel 0).right
          ∈ edge_values boxes sel Box.right ∧
        ∀ x ∈ edge_values boxes sel Box.right,
          x ≤ (calculate_same_size_bounding_box boxes sel 0).right) ∧
      ((calculate_same_size_bounding_box boxes sel 0).top
          ∈ edge_values boxes sel Box.top ∧
        ∀ x ∈ edge_values boxes sel Box.top,
          x ≤ (calculate_same_size_bounding_box boxes sel 0).top)) ∧
    calculate_same_size_bounding_box demoBoxes [0, 1, 2] 0 = ⟨0, 0, 110, 110⟩ ∧
    calculate_same_size_bounding_box demoBoxes [0, 1, 2] 1 = ⟨5, 5, 105, 105⟩ := by
  refine ⟨?_, by decide, by decide⟩
  intro boxes sel hsel hvalid
  have hne : ∀ edge : Box → ℚ, edge_values boxes sel edge ≠ [] := by
    intro edge
    simp [edge_values, hsel]
  exact ⟨insertionSort_getD_zero_rel (· ≤ ·) _ (hne Box.left),
    insertionSort_getD_zero_rel (· ≤ ·) _ (hne Box.bottom),
    insertionSort_getD_zero_rel (· ≥ ·) _ (hne Box.right),
    insertionSort_getD_zero_rel (· ≥ ·) _ (hne Box.top)⟩

/-- C2 witness: the three-page example with selection `[0,1,2]`. -/
theorem same_size_bounding_box_spec_witness :
    ([0, 1, 2] : List ℕ) ≠ [] ∧
    (calculate_same_size_bounding_box demoBoxes [0, 1, 2] 0).left
      ∈ edge_values demoBoxes [0, 1, 2] Box.left :=
  ⟨by decide,
    (same_size_bounding_box_spec.1 demoBoxes [0, 1, 2] (by decide) (by decide)).1.1⟩

/-- C3: increasing `order_n` by one (while it stays below the selection size)
never decreases the box's left/bottom and never increases its right/top —
monotone relaxation in the order statistic. -/
theorem same_size_bounding_box_monotone (boxes : List Box) (sel : List ℕ)
    (order_n : ℕ) (_hvalid : ∀ pg ∈ sel, pg < boxes.length)
    (h : order_n + 1 < sel.length) :
    (calculate_same_size_bounding_box boxes sel order_n).left ≤
      (calculate_same_size_bounding_box boxes sel (order_n + 1)).left ∧
    (calculate_same_size_bounding_box boxes sel order_n).bottom ≤
      (calculate_same_size_bounding_box boxes sel (order_n + 1)).bottom ∧
    (calculate_same_size_bounding_box boxes sel (order_n + 1)).right ≤
      (calculate_same_size_bounding_box boxes sel order_n).right ∧
    (calculate_same_size_bounding_box boxes sel (order_n + 1)).top ≤
      (calculate_same_size_bounding_box boxes sel order_n).top := by
  have hlen : ∀ edge : Box → ℚ, order_n + 1 < (edge_values boxes sel edge).length := by
    intro edge
    simpa [edge_values] using h
  exact ⟨insertionSort_getD_adjacent_rel (· ≤ ·) _ order_n (hlen Box.left),
    insertionSort_getD_adjacent_rel (· ≤ ·) _ order_n (hlen Box.bottom),
    insertionSort_getD_adjacent_rel (· ≥ ·) _ order_n (hlen Box.right),
    insertionSort_getD_adjacent_rel (· ≥ ·) _ order_n (hlen Box.top)⟩

/-- C3 witness: the three-page example, step from `order_n = 0` to `1`. -/
theorem same_size_bounding_box_monotone_witness :
    ((0 : ℕ) + 1 < ([0, 1, 2] : List ℕ).length) ∧
    (calculate_same_size_bounding_box demoBoxes [0, 1, 2] 0).left ≤
      (calculate_same_size_bounding_box demoBoxes [0, 1, 2] (0 + 1)).left :=
  ⟨by decide,
    (same_size_bounding_box_monotone demoBoxes [0, 1, 2] 0 (by decide) (by decide)).1⟩
